import Mathlib

/-!
# Verification of the appointment-booking backend (`src/main.py`, `src/schemas.py`)

Shallow embedding conventions:

* `HH:MM` time-of-day strings are modelled as minutes since midnight
  (`Nat`).  For valid zero-padded `HH:MM` strings (hours `00`–`23`,
  minutes `00`–`59` — the only values `parse_time` / `strftime("%H:%M")`
  produce), lexicographic string comparison agrees with numeric
  comparison of the minute counts, so the string comparisons on line
  134 of `main.py` and the `$lt`/`$gt` Mongo query operators of
  `create_booking` are modelled by `<`/`≤` on `Nat`.
* Calendar dates (`YYYY-MM-DD` strings / `datetime.date` values) are
  modelled as day numbers since an epoch that falls on a Monday, so
  Python's `date.weekday()` (0 = Monday … 6 = Sunday) becomes `d % 7`,
  and `day.isoformat()` equality becomes `Nat` equality (ISO date
  strings are in bijection with day numbers).
* The Mongo collections are modelled as lists in retrieval order; `find`
  with an equality filter is `List.filter`, `find_one` is `List.find?`,
  and `insert_one` appends.
* `bson.ObjectId(s)` accepts exactly the 24-character hexadecimal
  strings (when given a `str`); `to_object_id` raising `HTTPException
  400` is modelled by an `invalidId` error.
-/

namespace Appointments

/-- The error kinds raised by the handlers (HTTP status in comments). -/
inductive ApiError where
  | invalidId   -- 400 "Invalid id"
  | notFound    -- 404 "Service not found"
  | conflict    -- 409 "Time slot already booked"
deriving DecidableEq, Repr

/-- Schema `Service` (`schemas.py`). Only fields the handlers read are
kept with their meaning; `price` is modelled as `Nat` (its numeric value
is never used by the core logic). -/
structure Service where
  name : String
  description : Option String := none
  duration_minutes : Nat
  price : Option Nat := none
  color : Option String := none
  slug : Option String := none
deriving DecidableEq, Repr

/-- Schema `Availability` (`schemas.py`): weekday or specific-date
window.  `start_time`/`end_time` in minutes since midnight. -/
structure AvailabilityRule where
  service_id : String
  consultant : Option String := none
  weekday : Option Nat := none
  date : Option Nat := none
  start_time : Nat
  end_time : Nat
  timezone : Option String := none
deriving DecidableEq, Repr

inductive BookingStatus where
  | pending
  | confirmed
  | cancelled
deriving DecidableEq, Repr

/-- Schema `Booking` (`schemas.py`). -/
structure Booking where
  service_id : String
  service_name : Option String := none
  customer_name : String
  email : String
  date : Nat
  start_time : Nat
  end_time : Nat
  notes : Option String := none
  status : BookingStatus := .confirmed
deriving DecidableEq, Repr

/-- The three collections of the document store, in retrieval order.
`services` pairs each document with its store-assigned `_id`. -/
structure DB where
  services : List (String × Service)
  availability : List AvailabilityRule
  bookings : List Booking
deriving DecidableEq, Repr

/-- Response model `FreeSlot` of `main.py`. -/
structure FreeSlot where
  date : Nat
  start_time : Nat
  end_time : Nat
deriving DecidableEq, Repr

def isHexChar (c : Char) : Bool :=
  c.isDigit || ('a' ≤ c && c ≤ 'f') || ('A' ≤ c && c ≤ 'F')

/-- Validity test: `bson.ObjectId` accepts a string iff it is 24 hex characters;
`to_object_id` (main.py:39) raises 400 otherwise. -/
def isValidObjectId (s : String) : Bool :=
  s.length == 24 && s.toList.all isHexChar

/-- Lookup `db["service"].find_one` by `_id`. -/
def findService (db : DB) (sid : String) : Option Service :=
  (db.services.find? (fun p => p.1 == sid)).map (fun p => p.2)

/-- The overlap test of main.py:134:
`not (slot_end <= b_start or slot_start >= b_end)`. -/
def slot_overlaps (slot_start slot_end b_start b_end : Nat) : Bool :=
  !(decide (slot_end ≤ b_start) || decide (slot_start ≥ b_end))

/-- Structural engine for the `while` loop of main.py:130-137: `fuel`
bounds the number of remaining iterations (each iteration advances the
cursor by `dur ≥ 1`, so `end_dt + 1 - cursor` iterations always
suffice). -/
def slot_cursor_go (dur end_dt : Nat) : Nat → Nat → List (Nat × Nat)
  | 0, _ => []
  | fuel + 1, cursor =>
    if cursor + dur ≤ end_dt then
      (cursor, cursor + dur) :: slot_cursor_go dur end_dt fuel (cursor + dur)
    else
      []

/-- The `while cursor + dur <= end_dt` loop of main.py:130-137, before
booking-exclusion: the candidate `(slot_start, slot_end)` pairs.
The source loop diverges when `dur = 0` (the cursor never advances);
the schema guarantees `15 ≤ duration_minutes`, and the embedding
returns no slots in that impossible case to stay total. -/
def slot_cursor_loop (dur end_dt cursor : Nat) : List (Nat × Nat) :=
  if 0 < dur then
    slot_cursor_go dur end_dt (end_dt + 1 - cursor) cursor
  else
    []

/-- `booked.get(day_str, [])` (main.py:109-112, 134): the
`(start_time, end_time)` pairs of the (service-filtered) bookings on a
given date, in retrieval order. Booking `status` is never consulted. -/
def booked_on (bookings : List Booking) (day : Nat) : List (Nat × Nat) :=
  (bookings.filter (fun b => b.date == day)).map
    (fun b => (b.start_time, b.end_time))

/-- Body of the per-rule loop (main.py:122-137): candidate slots of the
rule's window, with the ones overlapping a booking on that day skipped,
emitted as `FreeSlot`s.  (The source interleaves the overlap test with
cursor advance; since emission never affects the cursor this equals
generate-then-filter.) -/
def rule_slots (dur : Nat) (r : AvailabilityRule)
    (booked_day : List (Nat × Nat)) (day : Nat) : List FreeSlot :=
  ((slot_cursor_loop dur r.end_time r.start_time).filter
      (fun s => !(booked_day.any (fun b => slot_overlaps s.1 s.2 b.1 b.2)))).map
    (fun s => { date := day, start_time := s.1, end_time := s.2 })

/-- main.py:121: rules matching a day, by weekday or specific date. -/
def day_rules (rules : List AvailabilityRule) (weekday day : Nat) :
    List AvailabilityRule :=
  rules.filter (fun r => r.weekday == some weekday || r.date == some day)

/-- The accumulated `out` list of main.py:114-137, before the final
`[:200]` cap: for each day offset `i < days`, for each matching rule,
the surviving slots. -/
def free_slots_raw (dur : Nat) (rules : List AvailabilityRule)
    (bookings : List Booking) (today days : Nat) : List FreeSlot :=
  (List.range days).flatMap (fun i =>
    let day := today + i
    let weekday := day % 7
    (day_rules rules weekday day).flatMap (fun r =>
      rule_slots dur r (booked_on bookings day) day))

/-- Handler `get_free_slots` (main.py:93-139). `today` is the reference date
(`datetime.utcnow().date()`), passed explicitly. -/
def get_free_slots (db : DB) (service_id : String) (days today : Nat) :
    Except ApiError (List FreeSlot) :=
  if isValidObjectId service_id then
    match findService db service_id with
    | none => .error .notFound
    | some service =>
      let rules := db.availability.filter (fun r => r.service_id == service_id)
      let bookings := db.bookings.filter (fun b => b.service_id == service_id)
      .ok ((free_slots_raw service.duration_minutes rules bookings today days).take 200)
  else
    .error .invalidId

/-- Handler `create_booking` (main.py:143-167).  Returns the resulting store
state together with the HTTP outcome (`new_id` stands for the id the
store generates on insert). -/
def create_booking (db : DB) (payload : Booking) (new_id : String) :
    DB × Except ApiError String :=
  if isValidObjectId payload.service_id then
    match findService db payload.service_id with
    | none => (db, .error .notFound)
    | some service =>
      if db.bookings.any (fun b =>
          b.service_id == payload.service_id && b.date == payload.date &&
          decide (b.start_time < payload.end_time) &&
          decide (b.end_time > payload.start_time)) then
        (db, .error .conflict)
      else
        let record := { payload with service_name := some service.name }
        ({ db with bookings := db.bookings ++ [record] }, .ok new_id)
  else
    (db, .error .invalidId)

/-! ## Concrete fixtures used by witnesses and counterexamples

Day number `7` is a Monday (weekday `7 % 7 = 0`), standing for the
spec's 2024-01-08 (which is a Monday); times are minutes since
midnight, e.g. `600 = 10:00`. -/

def exServiceId : String := "aaaaaaaaaaaaaaaaaaaaaaaa"

def exService : Service := { name := "Consultation Call", duration_minutes := 30 }

/-- Existing booking 10:00–10:30 on the Monday, for the example
service. -/
def exBooking : Booking :=
  { service_id := exServiceId, customer_name := "Ann", email := "ann@example.com",
    date := 7, start_time := 600, end_time := 630 }

def exDB : DB :=
  { services := [(exServiceId, exService)],
    availability :=
      [{ service_id := exServiceId, weekday := some 0,
         start_time := 540, end_time := 660 }],
    bookings := [exBooking] }

/-- Payload 10:30–11:00 on the same day: adjacent, non-overlapping. -/
def exAdjacent : Booking :=
  { service_id := exServiceId, customer_name := "Bob", email := "bob@example.com",
    date := 7, start_time := 630, end_time := 660 }

/-- Payload 10:15–10:45 on the same day: overlapping. -/
def exOverlapping : Booking :=
  { service_id := exServiceId, customer_name := "Cay", email := "cay@example.com",
    date := 7, start_time := 615, end_time := 645 }

/-- Weekday rule 09:00–09:30 for the example service. -/
def exRuleWeekday : AvailabilityRule :=
  { service_id := exServiceId, weekday := some 0, start_time := 540, end_time := 570 }

/-- Specific-date rule with the same 09:00–09:30 window, for day 7. -/
def exRuleDate : AvailabilityRule :=
  { service_id := exServiceId, date := some 7, start_time := 540, end_time := 570 }

/-- Weekday rule 10:00–10:30, retrieved before the earlier window. -/
def exRuleLate : AvailabilityRule :=
  { service_id := exServiceId, weekday := some 0, start_time := 600, end_time := 630 }

/-- Weekday rule 09:00–09:30, retrieved after `exRuleLate`. -/
def exRuleEarly : AvailabilityRule :=
  { service_id := exServiceId, weekday := some 0, start_time := 540, end_time := 570 }

/-- A well-formed 24-hex id that resolves to no stored service. -/
def exMissingId : String := "bbbbbbbbbbbbbbbbbbbbbbbb"

/-- Payload whose service id is not a valid ObjectId string. -/
def exBadIdBooking : Booking := { exBooking with service_id := "oops" }

/-- Payload whose service id is well-formed but unknown. -/
def exMissingBooking : Booking := { exBooking with service_id := exMissingId }

/-- A booking for a different service, same date and time. -/
def exOtherBooking : Booking :=
  { service_id := exMissingId, customer_name := "Zed", email := "zed@example.com",
    date := 7, start_time := 540, end_time := 570 }

/-- Copy of `exDB` with an extra unrelated service and an unrelated booking. -/
def exDB2 : DB :=
  { services := exDB.services ++ [(exMissingId, { name := "Other", duration_minutes := 60 })],
    availability := exDB.availability,
    bookings := exDB.bookings ++ [exOtherBooking] }

/-- Replace a booking's status, leaving every other field unchanged. -/
def set_status (st : BookingStatus) (b : Booking) : Booking := { b with status := st }

/-! ## Helper lemmas -/

theorem filter_sid_set_status (l : List Booking) (st : BookingStatus) (sid : String) :
    (l.map (set_status st)).filter (fun b => b.service_id == sid) =
      (l.filter (fun b => b.service_id == sid)).map (set_status st) := by
  rw [List.filter_map]
  exact rfl

theorem booked_on_set_status (l : List Booking) (st : BookingStatus) (day : Nat) :
    booked_on (l.map (set_status st)) day = booked_on l day := by
  unfold booked_on
  rw [List.filter_map, List.map_map]
  exact rfl

theorem free_slots_raw_set_status (dur : Nat) (rules : List AvailabilityRule)
    (l : List Booking) (st : BookingStatus) (today days : Nat) :
    free_slots_raw dur rules (l.map (set_status st)) today days =
      free_slots_raw dur rules l today days := by
  unfold free_slots_raw
  simp only [booked_on_set_status]

/-- Closed form of the slot cursor engine: with a positive duration and
enough fuel the candidates are exactly `(c + k*dur, c + (k+1)*dur)` for
`k < (end_dt - c) / dur`. -/
theorem slot_cursor_go_closed (dur end_dt : Nat) (hdur : 0 < dur) :
    ∀ fuel cursor, end_dt + 1 - cursor ≤ fuel →
      slot_cursor_go dur end_dt fuel cursor =
        (List.range ((end_dt - cursor) / dur)).map
          (fun k => (cursor + k * dur, cursor + k * dur + dur)) := by
  intro fuel
  induction fuel with
  | zero =>
    intro c h
    have h0 : end_dt - c = 0 := by omega
    simp only [slot_cursor_go]
    rw [h0, Nat.zero_div, List.range_zero, List.map_nil]
  | succ n ih =>
    intro c h
    simp only [slot_cursor_go]
    by_cases hc : c + dur ≤ end_dt
    · rw [if_pos hc, ih (c + dur) (by omega)]
      have hdiv : (end_dt - c) / dur = (end_dt - (c + dur)) / dur + 1 := by
        rw [Nat.div_eq_sub_div hdur (by omega : dur ≤ end_dt - c)]
        have harg : end_dt - c - dur = end_dt - (c + dur) := by omega
        rw [harg]
      rw [hdiv, List.range_succ_eq_map, List.map_cons, List.map_map]
      refine congrArg₂ _ (by simp) (List.map_congr_left ?_)
      intro k _
      simp only [Function.comp_apply, Nat.succ_eq_add_one, Prod.mk.injEq]
      constructor <;> ring
    · rw [if_neg hc]
      have : (end_dt - c) / dur = 0 := Nat.div_eq_of_lt (by omega)
      rw [this, List.range_zero, List.map_nil]

theorem slot_cursor_loop_eq (dur e s : Nat) (hdur : 0 < dur) :
    slot_cursor_loop dur e s =
      (List.range ((e - s) / dur)).map
        (fun k => (s + k * dur, s + k * dur + dur)) := by
  rw [slot_cursor_loop, if_pos hdur]
  exact slot_cursor_go_closed dur e hdur (e + 1 - s) s le_rfl

/-! ## Claims -/

/-- C1: for a matching rule, the loop discretizes `[start, end)` into
consecutive full-length slots: the `k`-th candidate is
`[start + k·dur, start + (k+1)·dur)`, the count (before
booking-exclusion) is `⌊(end - start) / dur⌋`, every slot has exactly
the service duration, and no slot's end exceeds the window end (so no
partial slot is emitted). -/
theorem c1_window_discretization (s e dur : Nat) (hdur : 0 < dur) :
    (slot_cursor_loop dur e s).length = (e - s) / dur ∧
    (∀ k, (hk : k < (slot_cursor_loop dur e s).length) →
      (slot_cursor_loop dur e s).get ⟨k, hk⟩ = (s + k * dur, s + k * dur + dur)) ∧
    (∀ p ∈ slot_cursor_loop dur e s, p.2 = p.1 + dur ∧ p.2 ≤ e) := by
  rw [slot_cursor_loop_eq dur e s hdur]
  refine ⟨by simp, ?_, ?_⟩
  · intro k hk
    simp only [List.get_eq_getElem, List.getElem_map, List.getElem_range]
  · intro p hp
    simp only [List.mem_map, List.mem_range] at hp
    obtain ⟨k, hk, rfl⟩ := hp
    refine ⟨rfl, ?_⟩
    have h1 : (k + 1) * dur ≤ ((e - s) / dur) * dur :=
      Nat.mul_le_mul_right dur hk
    have h2 : ((e - s) / dur) * dur ≤ e - s := Nat.div_mul_le_self _ _
    have h3 : (k + 1) * dur = k * dur + dur := by ring
    have h4 : k * dur + dur ≤ e - s := by omega
    omega

/-- Witness for C1 at the spec's §8 example window 09:00–10:00 with a
30-minute duration: exactly two candidate slots. -/
theorem c1_witness : (slot_cursor_loop 30 600 540).length = (600 - 540) / 30 :=
  (c1_window_discretization 540 600 30 (by decide)).1

/-- C3: the overlap predicate of main.py:134 is symmetric in the two
intervals, and a non-empty interval always overlaps itself. -/
theorem c3_overlap_symmetric_reflexive :
    (∀ a1 a2 b1 b2 : Nat, slot_overlaps a1 a2 b1 b2 = slot_overlaps b1 b2 a1 a2) ∧
    (∀ s e : Nat, s < e → slot_overlaps s e s e = true) := by
  constructor
  · intro a1 a2 b1 b2
    simp only [slot_overlaps, ge_iff_le]
    rw [Bool.or_comm]
  · intro s e hse
    simp only [slot_overlaps, ge_iff_le, Bool.not_eq_true', Bool.or_eq_false_iff,
      decide_eq_false_iff_not, not_le]
    omega

/-- Witness for C3: the slot 10:00–10:30 overlaps an identical booking. -/
theorem c3_witness : slot_overlaps 600 630 600 630 = true :=
  c3_overlap_symmetric_reflexive.2 600 630 (by decide)

/-- C2: with a well-formed id resolving to a service, `create_booking`
fails with Conflict iff some existing booking with the same service_id
and date overlaps the payload's half-open interval; when every
same-service same-date booking is merely adjacent or disjoint, the call
succeeds and returns the new record's id. -/
theorem c2_conflict_iff (db : DB) (p : Booking) (nid : String) (s : Service)
    (hvalid : isValidObjectId p.service_id = true)
    (hsvc : findService db p.service_id = some s) :
    ((create_booking db p nid).2 = .error .conflict ↔
      ∃ b ∈ db.bookings, b.service_id = p.service_id ∧ b.date = p.date ∧
        b.start_time < p.end_time ∧ p.start_time < b.end_time) ∧
    ((∀ b ∈ db.bookings, b.service_id = p.service_id → b.date = p.date →
        b.end_time ≤ p.start_time ∨ p.end_time ≤ b.start_time) →
      (create_booking db p nid).2 = .ok nid) := by
  have hany : (db.bookings.any fun b =>
      b.service_id == p.service_id && b.date == p.date &&
      decide (b.start_time < p.end_time) && decide (b.end_time > p.start_time)) = true ↔
      ∃ b ∈ db.bookings, b.service_id = p.service_id ∧ b.date = p.date ∧
        b.start_time < p.end_time ∧ p.start_time < b.end_time := by
    simp only [List.any_eq_true, Bool.and_eq_true, beq_iff_eq, decide_eq_true_eq,
      gt_iff_lt, and_assoc]
  constructor
  · simp only [create_booking, hvalid, if_true, hsvc]
    by_cases hc : (db.bookings.any fun b =>
        b.service_id == p.service_id && b.date == p.date &&
        decide (b.start_time < p.end_time) && decide (b.end_time > p.start_time)) = true
    · rw [if_pos hc]
      simpa using hany.mp hc
    · rw [if_neg hc]
      constructor
      · intro habs
        simp at habs
      · intro hex
        exact absurd (hany.mpr hex) hc
  · intro hfree
    have hc : ¬ (db.bookings.any fun b =>
        b.service_id == p.service_id && b.date == p.date &&
        decide (b.start_time < p.end_time) && decide (b.end_time > p.start_time)) = true := by
      rw [hany]
      rintro ⟨b, hb, h1, h2, h3, h4⟩
      rcases hfree b hb h1 h2 with h5 | h5 <;> omega
    simp only [create_booking, hvalid, if_true, hsvc, if_neg hc]

/-- Witness for C2 on the spec's §8 example: with an existing booking
10:00–10:30, the adjacent request 10:30–11:00 succeeds with the new id,
and the overlapping request 10:15–10:45 fails with Conflict. -/
theorem c2_witness :
    (create_booking exDB exAdjacent "deadbeefdeadbeefdeadbeef").2 = .ok "deadbeefdeadbeefdeadbeef" ∧
    (create_booking exDB exOverlapping "deadbeefdeadbeefdeadbeef").2 = .error .conflict := by
  constructor
  · exact (c2_conflict_iff exDB exAdjacent "deadbeefdeadbeefdeadbeef" exService
      (by decide) rfl).2 (by decide)
  · exact (c2_conflict_iff exDB exOverlapping "deadbeefdeadbeefdeadbeef" exService
      (by decide) rfl).1.mpr ⟨exBooking, by simp [exDB], by decide, by decide, by decide, by decide⟩

/-- C4: every successful slot response is the `take 200` of the raw
generation sequence: a single cap across the whole horizon that keeps
the front (day-ascending) of the sequence — the output is a prefix of
the raw sequence, of length `min 200 raw.length`, so exactly 200
whenever more than 200 candidates survive. -/
theorem c4_result_cap (db : DB) (sid : String) (days today : Nat)
    (out : List FreeSlot)
    (h : get_free_slots db sid days today = .ok out) :
    ∃ s, findService db sid = some s ∧
      (let raw := free_slots_raw s.duration_minutes
          (db.availability.filter (fun r => r.service_id == sid))
          (db.bookings.filter (fun b => b.service_id == sid)) today days
       out = raw.take 200 ∧ out.length = min 200 raw.length ∧
       List.IsPrefix out raw ∧ (200 < raw.length → out.length = 200)) := by
  unfold get_free_slots at h
  by_cases hv : isValidObjectId sid = true
  · simp only [hv, if_true] at h
    cases hsvc : findService db sid with
    | none => rw [hsvc] at h; cases h
    | some s =>
      rw [hsvc] at h
      simp only [Except.ok.injEq] at h
      refine ⟨s, rfl, h.symm, ?_, ?_, ?_⟩
      · rw [h.symm, List.length_take]
      · rw [h.symm]; exact List.take_prefix _ _
      · intro hlong
        rw [h.symm, List.length_take]
        omega
  · rw [if_neg hv] at h
    cases h

/-- Witness for C4 at the example store over a one-day horizon
starting on the Monday: three slots survive and the output is the
(un-truncating) `take 200` prefix of the raw sequence. -/
theorem c4_witness :
    ∃ s, findService exDB exServiceId = some s ∧
      (let raw := free_slots_raw s.duration_minutes
          (exDB.availability.filter (fun r => r.service_id == exServiceId))
          (exDB.bookings.filter (fun b => b.service_id == exServiceId)) 7 1
       [⟨7, 540, 570⟩, ⟨7, 570, 600⟩, ⟨7, 630, 660⟩] = raw.take 200 ∧
       ([⟨7, 540, 570⟩, ⟨7, 570, 600⟩, ⟨7, 630, 660⟩] : List FreeSlot).length =
         min 200 raw.length ∧
       List.IsPrefix [⟨7, 540, 570⟩, ⟨7, 570, 600⟩, ⟨7, 630, 660⟩] raw ∧
       (200 < raw.length →
         ([⟨7, 540, 570⟩, ⟨7, 570, 600⟩, ⟨7, 630, 660⟩] : List FreeSlot).length = 200)) :=
  c4_result_cap exDB exServiceId 1 7 [⟨7, 540, 570⟩, ⟨7, 570, 600⟩, ⟨7, 630, 660⟩] rfl

/-- C5: a rule is selected for a day iff its weekday equals the day's
weekday OR its date equals the day's date; and when a weekday rule and
a specific-date rule both match the same day, slots come from both
rules with no deduplication — on day 7 (a Monday) the weekday rule and
the coinciding date rule each contribute the identical 09:00–09:30
slot, which appears twice. -/
theorem c5_rule_selection_union :
    (∀ (rules : List AvailabilityRule) (wd day : Nat) (r : AvailabilityRule),
      r ∈ day_rules rules wd day ↔
        r ∈ rules ∧ (r.weekday = some wd ∨ r.date = some day)) ∧
    free_slots_raw 30 [exRuleWeekday, exRuleDate] [] 7 1 =
      [⟨7, 540, 570⟩, ⟨7, 540, 570⟩] := by
  constructor
  · intro rules wd day r
    simp only [day_rules, List.mem_filter, Bool.or_eq_true, beq_iff_eq]
  · rfl

/-- C6: booking status is never consulted by the free/busy logic —
overwriting every stored booking's status (with cancelled, pending or
confirmed alike) changes neither the slot computation's result nor the
booking-creation outcome. -/
theorem c6_status_never_consulted (db : DB) (sid nid : String) (days today : Nat)
    (p : Booking) (st : BookingStatus) :
    get_free_slots { db with bookings := db.bookings.map (set_status st) } sid days today =
      get_free_slots db sid days today ∧
    (create_booking { db with bookings := db.bookings.map (set_status st) } p nid).2 =
      (create_booking db p nid).2 := by
  constructor
  · have hsvc : findService { db with bookings := db.bookings.map (set_status st) } sid =
        findService db sid := rfl
    simp only [get_free_slots, hsvc, filter_sid_set_status, free_slots_raw_set_status]
  · have hsvc : findService { db with bookings := db.bookings.map (set_status st) }
        p.service_id = findService db p.service_id := rfl
    have hcomp : ((fun b => b.service_id == p.service_id && b.date == p.date &&
        decide (b.start_time < p.end_time) && decide (b.end_time > p.start_time)) ∘
          set_status st) =
        (fun b => b.service_id == p.service_id && b.date == p.date &&
          decide (b.start_time < p.end_time) && decide (b.end_time > p.start_time)) := rfl
    simp only [create_booking, hsvc, List.any_map, hcomp]
    by_cases hv : isValidObjectId p.service_id = true
    · simp only [hv, if_true]
      cases hfs : findService db p.service_id with
      | none => rfl
      | some s =>
        by_cases hc : (db.bookings.any fun b =>
            b.service_id == p.service_id && b.date == p.date &&
            decide (b.start_time < p.end_time) && decide (b.end_time > p.start_time)) = true
        · simp only [hc, if_true]
        · simp [hc]
    · simp [hv]

/-- Every slot produced for a rule on a given day carries that day's
date. -/
theorem date_of_mem_rule_slots (dur : Nat) (r : AvailabilityRule)
    (bk : List (Nat × Nat)) (day : Nat) (x : FreeSlot)
    (hx : x ∈ rule_slots dur r bk day) : x.date = day := by
  simp only [rule_slots, List.mem_map] at hx
  obtain ⟨s, _, rfl⟩ := hx
  rfl

/-- Every slot contributed by day offset `i` carries date `today + i`. -/
theorem date_of_mem_day_block (dur : Nat) (rules : List AvailabilityRule)
    (bookings : List Booking) (today i : Nat) (x : FreeSlot)
    (hx : x ∈ (day_rules rules ((today + i) % 7) (today + i)).flatMap
      (fun r => rule_slots dur r (booked_on bookings (today + i)) (today + i))) :
    x.date = today + i := by
  rw [List.mem_flatMap] at hx
  obtain ⟨r, _, hr⟩ := hx
  exact date_of_mem_rule_slots dur r _ _ x hr

/-- The candidate starts of the cursor loop are strictly increasing. -/
theorem slot_cursor_loop_starts_increasing (dur e s : Nat) :
    List.Pairwise (fun p q : Nat × Nat => p.1 < q.1) (slot_cursor_loop dur e s) := by
  by_cases hdur : 0 < dur
  · rw [slot_cursor_loop_eq dur e s hdur, List.pairwise_map]
    refine (List.pairwise_lt_range _).imp ?_
    intro i j hij
    have := Nat.mul_lt_mul_of_lt_of_le hij (le_refl dur) hdur
    omega
  · rw [slot_cursor_loop, if_neg hdur]
    exact List.Pairwise.nil

/-- C7: slot emission order — dates are nondecreasing across the whole
output (day ascending over the horizon); within one rule's window the
surviving slots are strictly time-ascending; but rules are visited in
retrieval order, so the output need not be globally time-sorted within
a day: with the 10:00 rule retrieved before the 09:00 rule the Monday
output is `[10:00–10:30, 09:00–09:30]`. -/
theorem c7_emission_order :
    (∀ (dur : Nat) (rules : List AvailabilityRule) (bookings : List Booking)
      (today days : Nat),
      List.Pairwise (fun a b : FreeSlot => a.date ≤ b.date)
        (free_slots_raw dur rules bookings today days)) ∧
    (∀ (dur : Nat) (r : AvailabilityRule) (bk : List (Nat × Nat)) (day : Nat),
      List.Pairwise (fun a b : FreeSlot => a.start_time < b.start_time)
        (rule_slots dur r bk day)) ∧
    free_slots_raw 30 [exRuleLate, exRuleEarly] [] 7 1 =
      [⟨7, 600, 630⟩, ⟨7, 540, 570⟩] ∧
    ¬ List.Pairwise (fun a b : FreeSlot => a.start_time ≤ b.start_time)
      (free_slots_raw 30 [exRuleLate, exRuleEarly] [] 7 1) := by
  refine ⟨?_, ?_, rfl, by decide⟩
  · intro dur rules bookings today days
    unfold free_slots_raw
    rw [List.flatMap_def, List.pairwise_flatten]
    constructor
    · intro l hl
      rw [List.mem_map] at hl
      obtain ⟨i, _, rfl⟩ := hl
      refine List.pairwise_of_forall_mem_list ?_
      intro a ha b hb
      rw [date_of_mem_day_block dur rules bookings today i a ha,
        date_of_mem_day_block dur rules bookings today i b hb]
    · rw [List.pairwise_map]
      refine (List.pairwise_lt_range _).imp ?_
      intro i j hij x hx y hy
      rw [date_of_mem_day_block dur rules bookings today i x hx,
        date_of_mem_day_block dur rules bookings today j y hy]
      omega
  · intro dur r bk day
    unfold rule_slots
    rw [List.pairwise_map]
    exact ((slot_cursor_loop_starts_increasing dur r.end_time r.start_time).sublist
      (List.filter_sublist _)).imp (fun h => h)

/-- C8: for both operations, a malformed service id is rejected with
the 400-class InvalidIdentifier error independently of the store's
contents (quantifying over every `db` shows the id never influences —
and is never passed to — a storage query), and a well-formed id that
resolves to no Service fails with NotFound. -/
theorem c8_id_validation_and_not_found (sid nid : String) (days today : Nat)
    (p : Booking) :
    (isValidObjectId sid = false →
      ∀ db : DB, get_free_slots db sid days today = .error .invalidId) ∧
    (isValidObjectId p.service_id = false →
      ∀ db : DB, create_booking db p nid = (db, .error .invalidId)) ∧
    (∀ db : DB, isValidObjectId sid = true → findService db sid = none →
      get_free_slots db sid days today = .error .notFound) ∧
    (∀ db : DB, isValidObjectId p.service_id = true →
      findService db p.service_id = none →
      (create_booking db p nid).2 = .error .notFound) := by
  refine ⟨?_, ?_, ?_, ?_⟩
  · intro hinv db
    simp [get_free_slots, hinv]
  · intro hinv db
    simp [create_booking, hinv]
  · intro db hval hnone
    simp [get_free_slots, hval, hnone]
  · intro db hval hnone
    simp [create_booking, hval, hnone]

/-- Witness for C8: a malformed id yields 400 on both endpoints; the
unknown-but-well-formed id `exMissingId` yields 404 on both. -/
theorem c8_witness :
    get_free_slots exDB "oops" 14 7 = .error .invalidId ∧
    create_booking exDB exBadIdBooking "c0ffeec0ffeec0ffeec0ffee" =
      (exDB, .error .invalidId) ∧
    get_free_slots exDB exMissingId 14 7 = .error .notFound ∧
    (create_booking exDB exMissingBooking "c0ffeec0ffeec0ffeec0ffee").2 =
      .error .notFound := by
  refine ⟨?_, ?_, ?_, ?_⟩
  · exact (c8_id_validation_and_not_found "oops" "c0ffeec0ffeec0ffeec0ffee" 14 7
      exBooking).1 rfl exDB
  · exact (c8_id_validation_and_not_found exServiceId "c0ffeec0ffeec0ffeec0ffee" 14 7
      exBadIdBooking).2.1 rfl exDB
  · exact (c8_id_validation_and_not_found exMissingId "c0ffeec0ffeec0ffeec0ffee" 14 7
      exBooking).2.2.1 exDB rfl rfl
  · exact (c8_id_validation_and_not_found exServiceId "c0ffeec0ffeec0ffeec0ffee" 14 7
      exMissingBooking).2.2.2 exDB rfl rfl

/-- C9: the slot computation is a deterministic function of the data it
reads — the service's duration, the service-filtered rules and bookings,
the reference date and the horizon; two stores agreeing on those (even
if they differ elsewhere) produce identical ordered output. -/
theorem c9_determinism (db1 db2 : DB) (sid : String) (days today : Nat)
    (s1 s2 : Service)
    (h1 : findService db1 sid = some s1) (h2 : findService db2 sid = some s2)
    (hdur : s1.duration_minutes = s2.duration_minutes)
    (hrules : db1.availability.filter (fun r => r.service_id == sid) =
      db2.availability.filter (fun r => r.service_id == sid))
    (hbook : db1.bookings.filter (fun b => b.service_id == sid) =
      db2.bookings.filter (fun b => b.service_id == sid)) :
    get_free_slots db1 sid days today = get_free_slots db2 sid days today := by
  simp only [get_free_slots, h1, h2]
  rw [hdur, hrules, hbook]

/-- Witness for C9: adding an unrelated service and an unrelated
booking to the store leaves the slot output unchanged. -/
theorem c9_witness :
    get_free_slots exDB exServiceId 14 7 = get_free_slots exDB2 exServiceId 14 7 :=
  c9_determinism exDB exDB2 exServiceId 14 7 exService exService
    rfl rfl rfl rfl rfl

/-- C10: `create_booking` inserts nothing on any failure (the store
comes back unchanged), and on success the single inserted record is the
payload with `service_name` overwritten by the looked-up service's
current name. -/
theorem c10_insert_only_after_checks (db : DB) (p : Booking) (nid : String) :
    (∀ e : ApiError, (create_booking db p nid).2 = .error e →
      (create_booking db p nid).1 = db) ∧
    (∀ r : String, (create_booking db p nid).2 = .ok r →
      r = nid ∧ ∃ s, findService db p.service_id = some s ∧
        (create_booking db p nid).1 =
          { db with bookings := db.bookings ++ [{ p with service_name := some s.name }] }) := by
  by_cases hv : isValidObjectId p.service_id = true
  · cases hfs : findService db p.service_id with
    | none =>
      constructor
      · intro e _
        simp [create_booking, hv, hfs]
      · intro r hr
        simp [create_booking, hv, hfs] at hr
    | some s =>
      by_cases hc : (db.bookings.any fun b =>
          b.service_id == p.service_id && b.date == p.date &&
          decide (b.start_time < p.end_time) &&
          decide (b.end_time > p.start_time)) = true
      · constructor
        · intro e _
          simp [create_booking, hv, hfs, hc]
        · intro r hr
          simp [create_booking, hv, hfs, hc] at hr
      · constructor
        · intro e he
          simp [create_booking, hv, hfs, hc] at he
        · intro r hr
          have hstep : create_booking db p nid =
              ({ db with bookings := db.bookings ++ [{ p with service_name := some s.name }] },
                .ok nid) := by
            simp [create_booking, hv, hfs, hc]
          rw [hstep] at hr
          simp only [Except.ok.injEq] at hr
          exact ⟨hr.symm, s, rfl, by rw [hstep]⟩
  · constructor
    · intro e _
      simp [create_booking, hv]
    · intro r hr
      simp [create_booking, hv] at hr

/-- Witness for C10: the overlapping request leaves the store
untouched; the adjacent request appends exactly the payload with the
service's name snapshotted. -/
theorem c10_witness :
    (create_booking exDB exOverlapping "cafecafecafecafecafecafe").1 = exDB ∧
    ("cafecafecafecafecafecafe" = "cafecafecafecafecafecafe" ∧
      ∃ s, findService exDB exAdjacent.service_id = some s ∧
        (create_booking exDB exAdjacent "cafecafecafecafecafecafe").1 =
          { exDB with bookings :=
              exDB.bookings ++ [{ exAdjacent with service_name := some s.name }] }) := by
  constructor
  · exact (c10_insert_only_after_checks exDB exOverlapping
      "cafecafecafecafecafecafe").1 .conflict rfl
  · exact (c10_insert_only_after_checks exDB exAdjacent
      "cafecafecafecafecafecafe").2 "cafecafecafecafecafecafe" rfl

/-- Witness for C5: the weekday rule is selected on day 7 because its
weekday matches. -/
theorem c5_witness :
    exRuleWeekday ∈ day_rules [exRuleWeekday, exRuleDate] 0 7 :=
  (c5_rule_selection_union.1 [exRuleWeekday, exRuleDate] 0 7 exRuleWeekday).mpr
    ⟨by simp, Or.inl rfl⟩

/-- Witness for C6: cancelling every stored booking of the example
store leaves the two-week slot output unchanged. -/
theorem c6_witness :
    get_free_slots { exDB with bookings := exDB.bookings.map (set_status .cancelled) }
      exServiceId 14 7 = get_free_slots exDB exServiceId 14 7 :=
  (c6_status_never_consulted exDB exServiceId "cafecafecafecafecafecafe" 14 7
    exAdjacent .cancelled).1

/-- Witness for C7: the surviving slots of the 09:00–09:30 rule are
strictly time-ascending. -/
theorem c7_witness :
    List.Pairwise (fun a b : FreeSlot => a.start_time < b.start_time)
      (rule_slots 30 exRuleEarly [] 7) :=
  c7_emission_order.2.1 30 exRuleEarly [] 7

end Appointments
